import Mathlib

/-!
Shallow embedding of `src/Refactor_Docstring+Markdown/refactor_solid.py`.

The Python program is single-threaded and side effects are limited to
logging and to mutating the `status` field of the shared `Order` object.
We embed it by explicit state passing: `run_checkout` returns the boolean
result, the updated order, and the trace of observable events produced
during the call.  The trace records every log entry emitted as well as a
marker for each delegate call the coordinator makes (`processCall`,
`sendCall`), so that "the notifier's send is invoked exactly once" is a
statement about the trace.  Components (payment processors, notifiers)
are capability records whose only effects are log entries, matching the
contracts in the source: `process(order) -> bool` and `send(order) -> None`,
with logging as the only side effect of the concrete variants.
-/

namespace RefactorSolid

/-- The `Order` dataclass: `customer_name`, `total_price`, and `status`
with default value "open".  `total_price` is a numeric amount; no
arithmetic is ever performed on it, so it is embedded as `Int`. -/
structure Order where
  customer_name : String
  total_price : Int
  status : String := "open"
  deriving DecidableEq, Repr

/-- One entry of the logging stream: channel (logger name), level, message,
mirroring the `name - levelname - message` format configured in the source. -/
structure LogEntry where
  channel : String
  level : String
  msg : String
  deriving DecidableEq, Repr

/-- Observable events of one `run_checkout` call: log entries, plus a marker
for each delegate call the coordinator makes (the call markers record the
argument the delegate was invoked with). -/
inductive Event where
  | log (entry : LogEntry)
  | processCall (order : Order)
  | sendCall (order : Order)
  deriving DecidableEq, Repr

/-- The `IPaymentProcessor` contract: `process(order)` returns a success
boolean; its only other effect is the log entries it emits. -/
structure IPaymentProcessor where
  process : Order → Bool × List LogEntry

/-- The `INotificationService` contract: `send(order)` returns nothing; its
only effect is the log entries it emits. -/
structure INotificationService where
  send : Order → List LogEntry

/-- `CreditCardProcessor.process`: logs on the payment-method channel and
unconditionally returns `True`. -/
def CreditCardProcessor : IPaymentProcessor where
  process := fun _ =>
    (true, [⟨"Metode Pembayaran", "INFO", "Payment: Memproses Kartu Kredit."⟩])

/-- `QrisProcessor.process`: logs on the payment-method channel and
unconditionally returns `True`. -/
def QrisProcessor : IPaymentProcessor where
  process := fun _ =>
    (true, [⟨"Metode Pembayaran", "INFO", "Payment: Memproses QRIS."⟩])

/-- `EmailNotifier.send`: logs one confirmation line naming the customer. -/
def EmailNotifier : INotificationService where
  send := fun order =>
    [⟨"Notifikasi", "INFO",
      "Notif: Mengirim email konfirmasi ke " ++ order.customer_name ++ "."⟩]

/-- `CheckoutService`: holds the two injected capability references. -/
structure CheckoutService where
  payment_processor : IPaymentProcessor
  notifier : INotificationService

/-- `CheckoutService.run_checkout`, translated line by line from the source:
log the start message; call `process`; if it returned true, set
`order.status = "paid"`, call the notifier's `send` on the (mutated, shared)
order, log success and return true; otherwise log an error and return false.
Returns the boolean result, the final state of the order, and the event
trace of the call. -/
def CheckoutService.run_checkout (self : CheckoutService) (order : Order) :
    Bool × Order × List Event :=
  let startLog : Event := Event.log
    ⟨"Checkout", "INFO",
      "Memulai checkout untuk " ++ order.customer_name ++ ". Total: " ++
        toString order.total_price⟩
  let pres := self.payment_processor.process order
  if pres.1 then
    let order' : Order := { order with status := "paid" }
    let sevs := self.notifier.send order'
    (true, order',
      startLog :: Event.processCall order :: (pres.2.map Event.log) ++
        Event.sendCall order' :: (sevs.map Event.log) ++
        [Event.log ⟨"Checkout", "INFO", "Checkout Sukses. Status pesanan: PAID"⟩])
  else
    (false, order,
      startLog :: Event.processCall order :: (pres.2.map Event.log) ++
        [Event.log ⟨"Checkout", "ERROR", "Pembayaran gagal. Transaksi dibatalkan."⟩])

/-- Whether an event is a `sendCall` marker (an invocation of the
notifier's `send` by the coordinator). -/
def Event.isSendCall : Event → Bool
  | Event.sendCall _ => true
  | _ => false

/-- Whether an event is a `sendCall` marker whose order names the given
customer. -/
def Event.isSendCallFor (name : String) : Event → Bool
  | Event.sendCall o => o.customer_name == name
  | _ => false

/-- Whether an event is a log entry at level ERROR. -/
def Event.isError : Event → Bool
  | Event.log e => e.level == "ERROR"
  | _ => false

/-- Number of notifier `send` invocations recorded in a trace. -/
def sendCount (evs : List Event) : Nat :=
  (evs.filter Event.isSendCall).length

/-- Number of notifier `send` invocations for a given customer name. -/
def sendCountFor (name : String) (evs : List Event) : Nat :=
  (evs.filter (Event.isSendCallFor name)).length

/-- Scenario 1 data: `andi_order = Order("Andi", 500000)`. -/
def andi_order : Order := { customer_name := "Andi", total_price := 500000 }

/-- The shared `email_service = EmailNotifier()` instance. -/
def email_service : INotificationService := EmailNotifier

/-- `cc_processor = CreditCardProcessor()`. -/
def cc_processor : IPaymentProcessor := CreditCardProcessor

/-- `checkout_cc = CheckoutService(cc_processor, email_service)`. -/
def checkout_cc : CheckoutService :=
  { payment_processor := cc_processor, notifier := email_service }

/-- The first entry scenario: `checkout_cc.run_checkout(andi_order)`. -/
def scenario1 : Bool × Order × List Event :=
  checkout_cc.run_checkout andi_order

/-- Scenario 2 data: `budi_order = Order("Budi", 100000)`. -/
def budi_order : Order := { customer_name := "Budi", total_price := 100000 }

/-- `qris_processor = QrisProcessor()`. -/
def qris_processor : IPaymentProcessor := QrisProcessor

/-- `checkout_qris = CheckoutService(qris_processor, email_service)`. -/
def checkout_qris : CheckoutService :=
  { payment_processor := qris_processor, notifier := email_service }

/-- The second entry scenario: `checkout_qris.run_checkout(budi_order)`. -/
def scenario2 : Bool × Order × List Event :=
  checkout_qris.run_checkout budi_order

/-- Filtering the send-call markers out of a list of lifted log events
yields nothing: log events are never send calls. -/
theorem filter_isSendCall_map_log (l : List LogEntry) :
    (l.map Event.log).filter Event.isSendCall = [] := by
  induction l with
  | nil => rfl
  | cons a t ih => simp [Event.isSendCall, ih]

/-- Claim C1: for every order and every injected payment processor,
`run_checkout order` returns true if and only if the processor's
`process order` call returns true. -/
theorem run_checkout_result_iff_process (svc : CheckoutService) (order : Order) :
    (svc.run_checkout order).1 = true ↔
      (svc.payment_processor.process order).1 = true := by
  cases hb : (svc.payment_processor.process order).1 <;>
    simp [CheckoutService.run_checkout, hb]

/-- Claim C2: if `run_checkout` returns true the order's status becomes
"paid"; if it returns false the order is unchanged (in particular its
status field, which stays "open" when it started as "open"). -/
theorem run_checkout_status (svc : CheckoutService) (order : Order) :
    ((svc.run_checkout order).1 = true →
      ((svc.run_checkout order).2.1).status = "paid") ∧
    ((svc.run_checkout order).1 = false →
      (svc.run_checkout order).2.1 = order) := by
  cases hb : (svc.payment_processor.process order).1 <;>
    simp [CheckoutService.run_checkout, hb]

/-- Witness for C2: both branches discharged on concrete inputs — the
credit-card scenario reaches "paid", and a hypothetical declining
processor leaves the order unchanged. -/
theorem run_checkout_status_witness :
    ((checkout_cc.run_checkout andi_order).2.1).status = "paid" ∧
    (CheckoutService.run_checkout
        ⟨⟨fun _ => (false, [])⟩, email_service⟩ andi_order).2.1 = andi_order :=
  ⟨(run_checkout_status checkout_cc andi_order).1 (by decide),
   (run_checkout_status ⟨⟨fun _ => (false, [])⟩, email_service⟩ andi_order).2
     (by decide)⟩

/-- Claim C3: in one `run_checkout` call the notifier's `send` is invoked
exactly once when the processor returns true and zero times when it
returns false, and every send invocation on the success path receives the
order with status already set to "paid". -/
theorem run_checkout_send_count (svc : CheckoutService) (order : Order) :
    ((svc.run_checkout order).1 = true →
      sendCount (svc.run_checkout order).2.2 = 1 ∧
      ∀ o, Event.sendCall o ∈ (svc.run_checkout order).2.2 → o.status = "paid") ∧
    ((svc.run_checkout order).1 = false →
      sendCount (svc.run_checkout order).2.2 = 0) := by
  cases hb : (svc.payment_processor.process order).1 <;>
    simp [CheckoutService.run_checkout, hb, sendCount, Event.isSendCall,
      List.filter_append, filter_isSendCall_map_log]

/-- Witness for C3: on the credit-card scenario the trace has exactly one
send invocation, its argument is marked "paid", and a hypothetical
declining processor produces zero send invocations. -/
theorem run_checkout_send_count_witness :
    (sendCount (checkout_cc.run_checkout andi_order).2.2 = 1 ∧
      ∀ o, Event.sendCall o ∈ (checkout_cc.run_checkout andi_order).2.2 →
        o.status = "paid") ∧
    sendCount (CheckoutService.run_checkout
        ⟨⟨fun _ => (false, [])⟩, email_service⟩ andi_order).2.2 = 0 :=
  ⟨(run_checkout_send_count checkout_cc andi_order).1 (by decide),
   (run_checkout_send_count ⟨⟨fun _ => (false, [])⟩, email_service⟩ andi_order).2
     (by decide)⟩

/-- Claim C4: `run_checkout` mutates no field other than `status`:
`customer_name` and `total_price` are preserved by every call, and when
the processor returns false the order is not mutated at all. -/
theorem run_checkout_frame (svc : CheckoutService) (order : Order) :
    ((svc.run_checkout order).2.1).customer_name = order.customer_name ∧
    ((svc.run_checkout order).2.1).total_price = order.total_price ∧
    ((svc.run_checkout order).1 = false →
      (svc.run_checkout order).2.1 = order) := by
  cases hb : (svc.payment_processor.process order).1 <;>
    simp [CheckoutService.run_checkout, hb]

/-- Witness for C4: frame conditions on the credit-card scenario, and the
no-mutation-at-all clause on a hypothetical declining processor. -/
theorem run_checkout_frame_witness :
    ((checkout_cc.run_checkout andi_order).2.1).customer_name =
      andi_order.customer_name ∧
    (CheckoutService.run_checkout
        ⟨⟨fun _ => (false, [])⟩, email_service⟩ andi_order).2.1 = andi_order :=
  ⟨(run_checkout_frame checkout_cc andi_order).1,
   (run_checkout_frame ⟨⟨fun _ => (false, [])⟩, email_service⟩ andi_order).2.2
     (by decide)⟩

/-- Claim C5: a payment failure (the processor returning false) is fully
absorbed inside the coordinator: `run_checkout` surfaces it only as the
boolean return value false plus a logged ERROR entry in the trace.  The
embedding is by total functions, so no exception can propagate across the
component boundary at all. -/
theorem run_checkout_absorbs_failure (svc : CheckoutService) (order : Order)
    (h : (svc.payment_processor.process order).1 = false) :
    (svc.run_checkout order).1 = false ∧
    ∃ e ∈ (svc.run_checkout order).2.2, Event.isError e = true := by
  refine ⟨by simp [CheckoutService.run_checkout, h], ?_⟩
  exact ⟨Event.log ⟨"Checkout", "ERROR", "Pembayaran gagal. Transaksi dibatalkan."⟩,
    by simp [CheckoutService.run_checkout, h], rfl⟩

/-- Witness for C5: a hypothetical declining processor on the Andi order
yields the boolean false together with a logged error entry. -/
theorem run_checkout_absorbs_failure_witness :
    (CheckoutService.run_checkout
        ⟨⟨fun _ => (false, [])⟩, email_service⟩ andi_order).1 = false ∧
    ∃ e ∈ (CheckoutService.run_checkout
        ⟨⟨fun _ => (false, [])⟩, email_service⟩ andi_order).2.2,
      Event.isError e = true :=
  run_checkout_absorbs_failure ⟨⟨fun _ => (false, [])⟩, email_service⟩ andi_order
    (by decide)

/-- Claim C6: for every order, `CreditCardProcessor.process` and
`QrisProcessor.process` both unconditionally return true — neither
variant has a decline path. -/
theorem processors_always_true (order : Order) :
    (CreditCardProcessor.process order).1 = true ∧
    (QrisProcessor.process order).1 = true :=
  ⟨rfl, rfl⟩

/-- Claim C7: with the same notifier and the coordinator unmodified, a
`CheckoutService` built with `CreditCardProcessor` and one built with
`QrisProcessor` produce the same boolean return and the same final order
state whenever the two processors return equivalent boolean outcomes. -/
theorem cc_qris_interchangeable (n : INotificationService) (order : Order)
    (h : (CreditCardProcessor.process order).1 = (QrisProcessor.process order).1) :
    (CheckoutService.run_checkout ⟨CreditCardProcessor, n⟩ order).1 =
      (CheckoutService.run_checkout ⟨QrisProcessor, n⟩ order).1 ∧
    (CheckoutService.run_checkout ⟨CreditCardProcessor, n⟩ order).2.1 =
      (CheckoutService.run_checkout ⟨QrisProcessor, n⟩ order).2.1 := by
  simp [CheckoutService.run_checkout, CreditCardProcessor, QrisProcessor]

/-- Witness for C7: instantiated with the email notifier and the Andi
order; the equivalent-outcome hypothesis holds since both return true. -/
theorem cc_qris_interchangeable_witness :
    (CheckoutService.run_checkout ⟨CreditCardProcessor, email_service⟩ andi_order).1 =
      (CheckoutService.run_checkout ⟨QrisProcessor, email_service⟩ andi_order).1 ∧
    (CheckoutService.run_checkout ⟨CreditCardProcessor, email_service⟩ andi_order).2.1 =
      (CheckoutService.run_checkout ⟨QrisProcessor, email_service⟩ andi_order).2.1 :=
  cc_qris_interchangeable email_service andi_order (by decide)

/-- Claim C8: an `Order` constructed with only `customer_name` and
`total_price` has status "open", for every choice of those two values. -/
theorem order_default_status (c : String) (p : Int) :
    (({ customer_name := c, total_price := p } : Order)).status = "open" :=
  rfl

/-- Claim C9: scenario 1 (Andi, 500000, credit card) returns true with
final status "paid" and one send invocation observing customer "Andi";
scenario 2 (Budi, 100000, QRIS) returns true with final status "paid"
and one send invocation observing customer "Budi". -/
theorem entry_scenarios_behave :
    scenario1.1 = true ∧ scenario1.2.1.status = "paid" ∧
    sendCount scenario1.2.2 = 1 ∧ sendCountFor "Andi" scenario1.2.2 = 1 ∧
    scenario2.1 = true ∧ scenario2.2.1.status = "paid" ∧
    sendCount scenario2.2.2 = 1 ∧ sendCountFor "Budi" scenario2.2.2 = 1 := by
  decide

/-- Claim C10: `run_checkout` has no precondition on the order's status:
on an order already marked "paid", with a processor that succeeds on it,
it returns true again, leaves the order state unchanged (idempotent), and
records another send invocation — the notification effect repeats on
every successful call. -/
theorem run_checkout_repeat (svc : CheckoutService) (order : Order)
    (hp : (svc.payment_processor.process order).1 = true)
    (hs : order.status = "paid") :
    (svc.run_checkout order).1 = true ∧
    (svc.run_checkout order).2.1 = order ∧
    sendCount (svc.run_checkout order).2.2 = 1 := by
  have horder : ({ order with status := "paid" } : Order) = order := by
    cases order
    simp_all
  simp [CheckoutService.run_checkout, hp, horder, sendCount, Event.isSendCall,
    List.filter_append, filter_isSendCall_map_log]

/-- Witness for C10: running the credit-card checkout a second time on the
order produced by scenario 1 (already "paid") returns true, leaves the
order unchanged, and sends one more notification. -/
theorem run_checkout_repeat_witness :
    (checkout_cc.run_checkout scenario1.2.1).1 = true ∧
    (checkout_cc.run_checkout scenario1.2.1).2.1 = scenario1.2.1 ∧
    sendCount (checkout_cc.run_checkout scenario1.2.1).2.2 = 1 :=
  run_checkout_repeat checkout_cc scenario1.2.1 (by decide) (by decide)

end RefactorSolid
